import Mathlib

/-!
Shallow embedding of the settings session controller in
`colrev_core/frontend/src/App.tsx`: the controller state (`project`,
`sources`, `prep`, `scripts`, `isFileSaved`), the `loadData`, change-handler,
`onSave` and `onKeyDown` operations, and the document assembled by `onSave`.
The model files (`models/settings` and friends) are not part of the sources;
they are modelled from the specification where a claim depends on them.
-/

namespace ColrevFrontend

/-- Modelled from the spec: `ProjectConfig` is a structured record owned by
the project editor; the controller stores and forwards it without looking
inside. One representative field suffices for the controller's behavior. -/
structure Project where
  name : String
  deriving Repr, DecidableEq

/-- Modelled from the spec: `new Project()` yields a default record. -/
def Project.new : Project := { name := "" }

/-- Modelled from the spec: `SourceConfig` is an element of an ordered
sequence; the scenario in the spec shows fields such as type and path. -/
structure Source where
  type : String
  path : String
  deriving Repr, DecidableEq

/-- Modelled from the spec: `PrepConfig` is a structured record owned by the
prep editor; the controller treats it as a value it stores and forwards. -/
structure Prep where
  content : String
  deriving Repr, DecidableEq

/-- Modelled from the spec: `new Prep()` yields a default record. -/
def Prep.new : Prep := { content := "" }

/-- Modelled from the spec: `ScriptConfig` is an element of an ordered
sequence. -/
structure Script where
  endpoint : String
  deriving Repr, DecidableEq

/-- Modelled from the spec: the `data` sub-object of a settings document
holds the `scripts` sequence plus further fields that the controller never
edits; `rest` stands for those further fields. -/
structure DataSection where
  scripts : List Script
  rest : String
  deriving Repr, DecidableEq

/-- Modelled from the spec: `SettingsDocument` is
`{ project, sources, prep, data: { scripts, ...other fields } }`. -/
structure Settings where
  project : Project
  sources : List Source
  prep : Prep
  data : DataSection
  deriving Repr, DecidableEq

/-- Modelled from the spec: `new Settings()` yields a document of
empty/default values; in particular the `data` sub-object's fields other
than `scripts` take their default values. -/
def Settings.new : Settings :=
  { project := Project.new
    sources := []
    prep := Prep.new
    data := { scripts := [], rest := "" } }

/-- The controller state of `App`: the four `useState` sub-documents plus
the `isFileSaved` flag. -/
structure AppState where
  project : Project
  sources : List Source
  prep : Prep
  scripts : List Script
  isFileSaved : Bool
  deriving Repr, DecidableEq

/-- The initial `useState` values: `new Project()`, `[]`, `new Prep()`,
`[]`, `false`. -/
def AppState.initial : AppState :=
  { project := Project.new
    sources := []
    prep := Prep.new
    scripts := []
    isFileSaved := false }

/-- The synchronous head of `loadData`: `setIsFileSaved(false)` runs before
the await of `dataService.getSettings()`. -/
def loadDataStart (s : AppState) : AppState :=
  { s with isFileSaved := false }

/-- `loadData` completed with document `settings`: after the head, the four
setters store `settings.project`, `settings.sources`, `settings.prep` and
`settings.data.scripts`; `isFileSaved` is not touched again. -/
def loadData (settings : Settings) (s : AppState) : AppState :=
  { loadDataStart s with
    project := settings.project
    sources := settings.sources
    prep := settings.prep
    scripts := settings.data.scripts }

/-- `onProjectChanged`: `setIsFileSaved(false); setProject(project)`. -/
def onProjectChanged (project : Project) (s : AppState) : AppState :=
  { s with isFileSaved := false, project := project }

/-- `onSourcesChanged`: `setIsFileSaved(false); setSources(sources)`. -/
def onSourcesChanged (sources : List Source) (s : AppState) : AppState :=
  { s with isFileSaved := false, sources := sources }

/-- `onPrepChanged`: `setIsFileSaved(false); setPrep(prep)`. -/
def onPrepChanged (prep : Prep) (s : AppState) : AppState :=
  { s with isFileSaved := false, prep := prep }

/-- `onScriptsChanged`: `setIsFileSaved(false); setScripts(scripts)`. -/
def onScriptsChanged (scripts : List Script) (s : AppState) : AppState :=
  { s with isFileSaved := false, scripts := scripts }

/-- The document `onSave` hands to `dataService.saveSettings`: a
`new Settings()` whose `project`, `sources`, `prep` and `data.scripts` are
then overwritten from the controller state. -/
def assembleSettings (s : AppState) : Settings :=
  let settings := Settings.new
  { settings with
    project := s.project
    sources := s.sources
    prep := s.prep
    data := { settings.data with scripts := s.scripts } }

/-- Observable outcome of one `onSave` call: the resulting controller
state, the documents handed to `dataService.saveSettings` (in order), and
the `alert` messages issued. -/
structure SaveOutcome where
  state : AppState
  written : List Settings
  alerts : List String
  deriving Repr, DecidableEq

/-- `onSave`: assemble the document, `setIsFileSaved(false)`, then attempt
the write; `success` models whether `dataService.saveSettings` resolves or
rejects. On success `setIsFileSaved(true)`; on failure the catch block
issues `alert("Error saving file.")` and the flag stays false. Exactly one
write is attempted either way. -/
def onSave (success : Bool) (s : AppState) : SaveOutcome :=
  let settings := assembleSettings s
  let s1 : AppState := { s with isFileSaved := false }
  if success then
    { state := { s1 with isFileSaved := true }
      written := [settings]
      alerts := [] }
  else
    { state := s1
      written := [settings]
      alerts := ["Error saving file."] }

/-- `KEY_S` from `keycode-js`: the key code of the letter S. -/
def KEY_S : Nat := 83

/-- A keyboard event as `onKeyDown` reads it: the modifier flags and the
`which` key code. -/
structure KeyEvent where
  ctrlKey : Bool
  shiftKey : Bool
  altKey : Bool
  metaKey : Bool
  which : Nat
  deriving Repr, DecidableEq

/-- Observable outcome of one `onKeyDown` call: the resulting controller
state, the documents written, the alerts issued, and whether
`e.preventDefault()` ran. -/
structure KeyOutcome where
  state : AppState
  written : List Settings
  alerts : List String
  defaultSuppressed : Bool
  deriving Repr, DecidableEq

/-- `onKeyDown`: if `e.ctrlKey && e.which === KEY_S` then
`e.preventDefault()` and `onSave()`; otherwise nothing happens. -/
def onKeyDown (success : Bool) (e : KeyEvent) (s : AppState) : KeyOutcome :=
  if e.ctrlKey && e.which == KEY_S then
    let r := onSave success s
    { state := r.state
      written := r.written
      alerts := r.alerts
      defaultSuppressed := true }
  else
    { state := s
      written := []
      alerts := []
      defaultSuppressed := false }

/-- A loaded document whose `data` sub-object carries a field beyond
`scripts` that differs from the `new Settings()` default. -/
def sampleDoc : Settings :=
  { project := { name := "P" }
    sources := [{ type := "CSV", path := "a.csv" }]
    prep := { content := "p" }
    data := { scripts := [{ endpoint := "s1" }], rest := "x" } }

/-- A loaded document whose `data` sub-object's fields beyond `scripts`
equal the `new Settings()` defaults. -/
def plainDoc : Settings :=
  { project := { name := "P" }
    sources := []
    prep := Prep.new
    data := { scripts := [], rest := "" } }

/-- C1 counterexample: loading `sampleDoc` (whose `data.rest` is `"x"`) and
saving hands the persistence collaborator a document whose `data` sub-object
does not retain that field: `onSave` rebuilds from `new Settings()`. -/
theorem c1_save_drops_data_rest_counterexample :
    (ColrevFrontend.onSave true
        (ColrevFrontend.loadData ColrevFrontend.sampleDoc
          ColrevFrontend.AppState.initial)).written =
      [ColrevFrontend.assembleSettings
        (ColrevFrontend.loadData ColrevFrontend.sampleDoc
          ColrevFrontend.AppState.initial)] ∧
    (ColrevFrontend.assembleSettings
        (ColrevFrontend.loadData ColrevFrontend.sampleDoc
          ColrevFrontend.AppState.initial)).data.rest ≠
      ColrevFrontend.sampleDoc.data.rest :=
  ⟨rfl, by decide⟩

/-- C1 amended: the document `save()` persists after a load takes its
`data.scripts` from the loaded document, but every other field of the `data`
sub-object takes the `new Settings()` default value, so loaded fields the
controller does not edit survive only when they equal those defaults. -/
theorem c1_save_data_fields (D : ColrevFrontend.Settings)
    (s : ColrevFrontend.AppState) (b : Bool) :
    (ColrevFrontend.onSave b (ColrevFrontend.loadData D s)).written =
      [ColrevFrontend.assembleSettings (ColrevFrontend.loadData D s)] ∧
    (ColrevFrontend.assembleSettings
        (ColrevFrontend.loadData D s)).data.scripts = D.data.scripts ∧
    (ColrevFrontend.assembleSettings (ColrevFrontend.loadData D s)).data.rest =
      ColrevFrontend.Settings.new.data.rest := by
  cases b <;> exact ⟨rfl, rfl, rfl⟩

/-- C2 counterexample: for `sampleDoc`, `load()` then `save()` with no edits
hands the persistence collaborator a document different from the loaded one
(its `data.rest` is reset to the `new Settings()` default). -/
theorem c2_roundtrip_counterexample :
    (ColrevFrontend.onSave true
        (ColrevFrontend.loadData ColrevFrontend.sampleDoc
          ColrevFrontend.AppState.initial)).written ≠
      [ColrevFrontend.sampleDoc] := by
  decide

/-- C2 amended: `load()` then `save()` with no edits persists a document
that agrees with the loaded one on `project`, `sources`, `prep` and
`data.scripts` but has the `new Settings()` default for the other `data`
fields; it equals the loaded document exactly when those fields already
equal the defaults. -/
theorem c2_roundtrip (D : ColrevFrontend.Settings)
    (s : ColrevFrontend.AppState) (b : Bool) :
    (ColrevFrontend.onSave b (ColrevFrontend.loadData D s)).written =
      [{ project := D.project
         sources := D.sources
         prep := D.prep
         data := { scripts := D.data.scripts
                   rest := ColrevFrontend.Settings.new.data.rest } }] ∧
    (D.data.rest = ColrevFrontend.Settings.new.data.rest →
      (ColrevFrontend.onSave b (ColrevFrontend.loadData D s)).written = [D]) := by
  constructor
  · cases b <;> rfl
  · intro h
    have h1 : (ColrevFrontend.onSave b (ColrevFrontend.loadData D s)).written =
        [{ project := D.project
           sources := D.sources
           prep := D.prep
           data := { scripts := D.data.scripts
                     rest := ColrevFrontend.Settings.new.data.rest } }] := by
      cases b <;> rfl
    rw [h1, ← h]

/-- C2 witness: the round-trip equality holds at `plainDoc`, whose extra
`data` fields equal the defaults. -/
theorem c2_roundtrip_witness :
    (ColrevFrontend.onSave true
        (ColrevFrontend.loadData ColrevFrontend.plainDoc
          ColrevFrontend.AppState.initial)).written =
      [ColrevFrontend.plainDoc] :=
  (c2_roundtrip ColrevFrontend.plainDoc ColrevFrontend.AppState.initial true).2 rfl

/-- C3: the saved flag is false right after `loadData` starts and after it
completes, false after any change handler regardless of the prior state,
true after a successful `onSave`, false after a failed one, false again at
the next edit after a successful save, and in general `onSave` leaves the
flag equal to the success of the write — so only a successful save sets it. -/
theorem c3_dirty_tracking (s : ColrevFrontend.AppState)
    (D : ColrevFrontend.Settings) (p : ColrevFrontend.Project)
    (src : List ColrevFrontend.Source) (pr : ColrevFrontend.Prep)
    (sc : List ColrevFrontend.Script) (b : Bool) :
    (ColrevFrontend.loadDataStart s).isFileSaved = false ∧
    (ColrevFrontend.loadData D s).isFileSaved = false ∧
    (ColrevFrontend.onProjectChanged p s).isFileSaved = false ∧
    (ColrevFrontend.onSourcesChanged src s).isFileSaved = false ∧
    (ColrevFrontend.onPrepChanged pr s).isFileSaved = false ∧
    (ColrevFrontend.onScriptsChanged sc s).isFileSaved = false ∧
    (ColrevFrontend.onSave true s).state.isFileSaved = true ∧
    (ColrevFrontend.onSave false s).state.isFileSaved = false ∧
    (ColrevFrontend.onPrepChanged pr
        (ColrevFrontend.onSave true s).state).isFileSaved = false ∧
    (ColrevFrontend.onSave b s).state.isFileSaved = b := by
  refine ⟨rfl, rfl, rfl, rfl, rfl, rfl, rfl, rfl, rfl, ?_⟩
  cases b <;> rfl

/-- C4: when the persistence write fails, the saved flag is false
afterwards, exactly the single alert "Error saving file." is issued, and
exactly one write was attempted (no automatic retry). -/
theorem c4_save_failure (s : ColrevFrontend.AppState) :
    (ColrevFrontend.onSave false s).state.isFileSaved = false ∧
    (ColrevFrontend.onSave false s).alerts = ["Error saving file."] ∧
    (ColrevFrontend.onSave false s).written.length = 1 :=
  ⟨rfl, rfl, rfl⟩

/-- C5: a key event with the control modifier and key code `KEY_S`
suppresses default handling and yields exactly the state, writes and alerts
of calling `onSave` directly; any other key event leaves the controller
state unchanged and performs no write and no alert. -/
theorem c5_shortcut_equivalence (e : ColrevFrontend.KeyEvent) (b : Bool)
    (s : ColrevFrontend.AppState) :
    (e.ctrlKey = true ∧ e.which = ColrevFrontend.KEY_S →
      (ColrevFrontend.onKeyDown b e s).defaultSuppressed = true ∧
      (ColrevFrontend.onKeyDown b e s).state = (ColrevFrontend.onSave b s).state ∧
      (ColrevFrontend.onKeyDown b e s).written =
        (ColrevFrontend.onSave b s).written ∧
      (ColrevFrontend.onKeyDown b e s).alerts =
        (ColrevFrontend.onSave b s).alerts) ∧
    (¬ (e.ctrlKey = true ∧ e.which = ColrevFrontend.KEY_S) →
      (ColrevFrontend.onKeyDown b e s).state = s ∧
      (ColrevFrontend.onKeyDown b e s).written = [] ∧
      (ColrevFrontend.onKeyDown b e s).alerts = []) := by
  constructor
  · rintro ⟨h1, h2⟩
    simp [ColrevFrontend.onKeyDown, h1, h2]
  · intro h
    have hc : (e.ctrlKey && e.which == ColrevFrontend.KEY_S) = false := by
      cases hb : (e.ctrlKey && e.which == ColrevFrontend.KEY_S) with
      | false => rfl
      | true =>
        exact absurd ⟨(Bool.and_eq_true _ _ |>.mp hb).1,
          Nat.beq_eq_true_eq _ _ |>.mp (Bool.and_eq_true _ _ |>.mp hb).2⟩ h
    simp [ColrevFrontend.onKeyDown, hc]

/-- C5 witness: at a concrete control-S event the handler matches a direct
`onSave`, and at a concrete non-chord event the state is unchanged. -/
theorem c5_shortcut_equivalence_witness :
    (ColrevFrontend.onKeyDown true ⟨true, false, false, false, 83⟩
        ColrevFrontend.AppState.initial).defaultSuppressed = true ∧
    (ColrevFrontend.onKeyDown true ⟨false, false, false, false, 83⟩
        ColrevFrontend.AppState.initial).state =
      ColrevFrontend.AppState.initial :=
  ⟨((c5_shortcut_equivalence ⟨true, false, false, false, 83⟩ true
      ColrevFrontend.AppState.initial).1 ⟨rfl, rfl⟩).1,
   ((c5_shortcut_equivalence ⟨false, false, false, false, 83⟩ true
      ColrevFrontend.AppState.initial).2 (by decide)).1⟩

/-- C6: each change handler sets the saved flag to false and replaces
exactly its own sub-document in full, leaving the other three unchanged. -/
theorem c6_child_change_isolation (p : ColrevFrontend.Project)
    (src : List ColrevFrontend.Source) (pr : ColrevFrontend.Prep)
    (sc : List ColrevFrontend.Script) (s : ColrevFrontend.AppState) :
    ColrevFrontend.onPrepChanged pr s =
      { s with prep := pr, isFileSaved := false } ∧
    ColrevFrontend.onProjectChanged p s =
      { s with project := p, isFileSaved := false } ∧
    ColrevFrontend.onSourcesChanged src s =
      { s with sources := src, isFileSaved := false } ∧
    ColrevFrontend.onScriptsChanged sc s =
      { s with scripts := sc, isFileSaved := false } :=
  ⟨rfl, rfl, rfl, rfl⟩

/-- C7: after a load of `D` with no edits, the single document `save()`
persists has `sources` equal (as a sequence, hence in the same order) to
`D.sources`, and `data.scripts` equal to `D.data.scripts`. -/
theorem c7_order_preservation (D : ColrevFrontend.Settings)
    (s : ColrevFrontend.AppState) (b : Bool) :
    (ColrevFrontend.onSave b (ColrevFrontend.loadData D s)).written.map
        ColrevFrontend.Settings.sources = [D.sources] ∧
    (ColrevFrontend.onSave b (ColrevFrontend.loadData D s)).written.map
        (fun d => d.data.scripts) = [D.data.scripts] := by
  cases b <;> exact ⟨rfl, rfl⟩

/-- C8: two `onSave` calls in a row with no edit in between hand the
persistence collaborator the same single document each time, and a
successful save issues no alert. -/
theorem c8_save_idempotent (s : ColrevFrontend.AppState) (b1 b2 : Bool) :
    (ColrevFrontend.onSave b2 (ColrevFrontend.onSave b1 s).state).written =
      (ColrevFrontend.onSave b1 s).written ∧
    (ColrevFrontend.onSave b1 s).written.length = 1 ∧
    (ColrevFrontend.onSave b2 (ColrevFrontend.onSave b1 s).state).written.length
      = 1 ∧
    (ColrevFrontend.onSave true s).alerts = [] ∧
    (ColrevFrontend.onSave true (ColrevFrontend.onSave true s).state).alerts
      = [] := by
  cases b1 <;> cases b2 <;> exact ⟨rfl, rfl, rfl, rfl, rfl⟩

/-- C9: `onSave` never changes the four stored sub-documents, whether the
write succeeds or fails; only the saved flag may change. -/
theorem c9_save_frame (b : Bool) (s : ColrevFrontend.AppState) :
    (ColrevFrontend.onSave b s).state.project = s.project ∧
    (ColrevFrontend.onSave b s).state.sources = s.sources ∧
    (ColrevFrontend.onSave b s).state.prep = s.prep ∧
    (ColrevFrontend.onSave b s).state.scripts = s.scripts := by
  cases b <;> exact ⟨rfl, rfl, rfl, rfl⟩

/-- C10: any key event with the control modifier and key code 83 triggers
the save (same writes as `onSave`) and has its default handled away,
whatever the shift, alt and meta modifiers are; conversely default handling
is suppressed only for such events. -/
theorem c10_modifier_insensitive (b : Bool) (e : ColrevFrontend.KeyEvent)
    (s : ColrevFrontend.AppState) :
    (e.ctrlKey = true → e.which = ColrevFrontend.KEY_S →
      (ColrevFrontend.onKeyDown b e s).written =
        (ColrevFrontend.onSave b s).written ∧
      (ColrevFrontend.onKeyDown b e s).defaultSuppressed = true) ∧
    ((ColrevFrontend.onKeyDown b e s).defaultSuppressed = true →
      e.ctrlKey = true ∧ e.which = ColrevFrontend.KEY_S) := by
  constructor
  · intro h1 h2
    simp [ColrevFrontend.onKeyDown, h1, h2]
  · intro h
    by_cases hc : (e.ctrlKey && e.which == ColrevFrontend.KEY_S) = true
    · exact ⟨(Bool.and_eq_true _ _ |>.mp hc).1,
        Nat.beq_eq_true_eq _ _ |>.mp (Bool.and_eq_true _ _ |>.mp hc).2⟩
    · rw [ColrevFrontend.onKeyDown, if_neg hc] at h
      exact absurd h (by simp)

/-- C10 witness: a control-S event with shift, alt and meta all held still
triggers the save and has its default handling suppressed. -/
theorem c10_modifier_insensitive_witness :
    (ColrevFrontend.onKeyDown true ⟨true, true, true, true, 83⟩
        ColrevFrontend.AppState.initial).defaultSuppressed = true :=
  ((c10_modifier_insensitive true ⟨true, true, true, true, 83⟩
      ColrevFrontend.AppState.initial).1 rfl rfl).2

end ColrevFrontend
